import Mathlib

/-!
# Verification of the query-based record layer (`src/database.py`)

This file shallowly embeds the core of `database.py`:

* `Object` — the per-class identity cache (`__new__`, `__init__`, `update`);
* `Query` — the parameterized query container (`__init__`, `__repr__`),
  together with a faithful model of Python's `%` string-formatting operator
  for the two right-hand-side shapes the code produces (a dict of rendered
  values, or a list of rendered values);
* `Database` — the connection gateway (`initialize`, `commit`, `rollback`,
  `execute`, `get_one`, `get_all` and the private helpers).

Python objects are modelled by numeric identities plus an explicit heap
mapping each identity to its `__dict__` (an association list).  Python
exceptions are modelled with `Except String`; a raised exception aborts the
operation, so an operation that raises before mutating any state leaves the
state exactly as it was.  The external psycopg2 driver is out of scope for
the repository; a `Connection` is abstracted as the map from a query to the
cursor (or engine error) its execution yields.
-/

/-- Attribute / database values occurring in the program: strings, integers
and SQL NULL / Python `None`.  (The demo models only traffic in these.) -/
inductive Val where
  | str (s : String)
  | int (n : Int)
  | null
deriving DecidableEq, Repr

/-- Outcomes of fallible operations (`Except`) are compared in concrete
counterexamples and witnesses, so equality on them must be decidable. -/
instance {ε α : Type} [DecidableEq ε] [DecidableEq α] : DecidableEq (Except ε α) := fun a b =>
  match a, b with
  | Except.ok x, Except.ok y =>
      if h : x = y then isTrue (by rw [h])
      else isFalse (fun hh => h (by injection hh))
  | Except.error x, Except.error y =>
      if h : x = y then isTrue (by rw [h])
      else isFalse (fun hh => h (by injection hh))
  | Except.ok _, Except.error _ => isFalse (fun hh => Except.noConfusion hh)
  | Except.error _, Except.ok _ => isFalse (fun hh => Except.noConfusion hh)

/-- Python `repr` of a string: quote with `'`, or with `"` when the string
contains a single quote but no double quote; escape backslash, the chosen
quote and common control characters. -/
def pyEscapeChar (q : Char) (c : Char) : String :=
  if c = Char.ofNat 92 then "\\\\"
  else if c = q then "\\" ++ q.toString
  else if c = Char.ofNat 10 then "\\n"
  else if c = Char.ofNat 13 then "\\r"
  else if c = Char.ofNat 9 then "\\t"
  else c.toString

/-- Character membership, through the string's character list. -/
def strHasChar (s : String) (c : Char) : Bool :=
  s.toList.any (fun x => x == c)

def pyReprStr (s : String) : String :=
  let sq : Char := Char.ofNat 39
  let dq : Char := Char.ofNat 34
  let q : Char := if strHasChar s sq && !(strHasChar s dq) then dq else sq
  q.toString ++ String.join (s.toList.map (pyEscapeChar q)) ++ q.toString

/-- Python `repr` of a `Val` (as used by `Query.__repr__`). -/
def pyRepr : Val → String
  | Val.str s => pyReprStr s
  | Val.int n => toString n
  | Val.null => "None"

/-! ## Python dicts as association lists -/

/-- A Python `dict` (attribute set / record), keyed by insertion order with
unique keys when built through `alSet`. -/
abbrev Attrs := List (String × Val)

/-- `d[k]`, first matching entry. -/
def alGet {κ α : Type} [DecidableEq κ] : List (κ × α) → κ → Option α
  | [], _ => none
  | (k', v) :: rest, k => if k' = k then some v else alGet rest k

/-- `d[k] = v`: replace the existing entry in place, else append. -/
def alSet {κ α : Type} [DecidableEq κ] : List (κ × α) → κ → α → List (κ × α)
  | [], k, v => [(k, v)]
  | (k', v') :: rest, k, v =>
      if k' = k then (k, v) :: rest else (k', v') :: alSet rest k v

/-- Python `d.update(kw)`: set each of `kw`'s entries into `d` in order. -/
def dictUpdate (d : Attrs) (kw : Attrs) : Attrs :=
  kw.foldl (fun acc p => alSet acc p.1 p.2) d

/-! ## The identity cache (`class Object`) -/

/-- The mutable state backing one `Object` subclass: its `_instance_map`
(cache-key tuple to object identity), the heap of constructed instances
(object identity to its `__dict__`), and the next fresh identity. -/
structure ModelState where
  instanceMap : List (List Val × Nat) := []
  heap : List (Nat × Attrs) := []
  nextId : Nat := 0
deriving DecidableEq, Repr

/-- The `__dict__` of instance `i` (empty for an unknown identity). -/
def heapAttrs (st : ModelState) (i : Nat) : Attrs :=
  (alGet st.heap i).getD []

/-- `tuple(kwargs[column] for column in cls.primary_key)`: the generator
evaluates the lookups left to right, so the first missing column raises
`KeyError`. -/
def cache_key : List String → Attrs → Except String (List Val)
  | [], _ => Except.ok []
  | c :: cs, kwargs =>
      match alGet kwargs c with
      | none => Except.error ("KeyError: " ++ c)
      | some v =>
          match cache_key cs kwargs with
          | Except.error e => Except.error e
          | Except.ok vs => Except.ok (v :: vs)

/-- Constructing a model instance, i.e. the Python call `cls(**kwargs)`:
`Object.__new__` followed by `Object.__init__` on the returned instance.

* No primary key: allocate a fresh instance, bypassing the cache; `__init__`
  fills its `__dict__` with `kwargs`.
* Primary key declared: project `kwargs` onto the key columns (`KeyError`
  aborts before the cache is touched).  On a cache hit `__new__` returns the
  cached instance — and `__init__` still runs, merging `kwargs` into the
  cached instance's `__dict__`.  On a miss a fresh instance is allocated,
  cached under the key, and initialised with `kwargs`. -/
def objectNew (pk : Option (List String)) (kwargs : Attrs) (st : ModelState) :
    Except String (Nat × ModelState) :=
  match pk with
  | none =>
      Except.ok (st.nextId,
        { st with
          heap := alSet st.heap st.nextId (dictUpdate [] kwargs)
          nextId := st.nextId + 1 })
  | some cols =>
      match cache_key cols kwargs with
      | Except.error e => Except.error e
      | Except.ok key =>
          match alGet st.instanceMap key with
          | some i =>
              Except.ok (i,
                { st with heap := alSet st.heap i (dictUpdate (heapAttrs st i) kwargs) })
          | none =>
              Except.ok (st.nextId,
                { st with
                  instanceMap := alSet st.instanceMap key st.nextId
                  heap := alSet st.heap st.nextId (dictUpdate [] kwargs)
                  nextId := st.nextId + 1 })

/-- `Object.update`: `self.__dict__.update(kwargs)` on instance `i`. -/
def objectUpdate (i : Nat) (kwargs : Attrs) (st : ModelState) : ModelState :=
  { st with heap := alSet st.heap i (dictUpdate (heapAttrs st i) kwargs) }

/-! ## The query container (`class Query`) and Python `%` formatting

The SQL template string is embedded already split at its placeholders:
literal text, `%s` (positional) and `%(name)s` (named) pieces. -/

/-- One piece of a `%`-style template string. -/
inductive Fmt where
  | lit (s : String)
  | pos
  | named (n : String)
deriving DecidableEq, Repr

/-- The right-hand sides `Query.__repr__` can feed to `%`: a dict of
rendered values (`{name: repr(value)}`) or a list of rendered values
(`[repr(value) for value in self.args]`). -/
inductive FmtRhs where
  | rdict (m : List (String × String))
  | rlist (l : List String)
deriving DecidableEq, Repr

/-- Python `str` of a list of strings (each element shown with `repr`). -/
def pyStrOfStrList (l : List String) : String :=
  "[" ++ String.intercalate ", " (l.map pyReprStr) ++ "]"

/-- Python `str` of a dict from strings to strings. -/
def pyStrOfDict (m : List (String × String)) : String :=
  "\x7b" ++
    String.intercalate ", " (m.map (fun p => pyReprStr p.1 ++ ": " ++ pyReprStr p.2)) ++
    "\x7d"

/-- `str` of the whole right-hand side, used when a `%s` consumes it. -/
def fmtRhsStr : FmtRhs → String
  | FmtRhs.rdict m => pyStrOfDict m
  | FmtRhs.rlist l => pyStrOfStrList l

/-- Python's `template % rhs` for the two shapes above, checked against
CPython: a non-tuple right-hand side acts as a single positional value, so
the first `%s` prints `str(rhs)` and a second raises
`not enough arguments`; `%(name)s` indexes the right-hand side, which is a
`KeyError` on a dict missing the name and a `TypeError` on a list; both
shapes pass the mapping check, so leftover arguments never raise. -/
def pyFormatGo : List Fmt → FmtRhs → Bool → Except String String
  | [], _, _ => Except.ok ""
  | Fmt.lit s :: rest, rhs, consumed =>
      (pyFormatGo rest rhs consumed).map (fun t => s ++ t)
  | Fmt.named n :: rest, FmtRhs.rdict m, consumed =>
      match alGet m n with
      | none => Except.error ("KeyError: " ++ pyReprStr n)
      | some v => (pyFormatGo rest (FmtRhs.rdict m) consumed).map (fun t => v ++ t)
  | Fmt.named _ :: _, FmtRhs.rlist _, _ =>
      Except.error "TypeError: list indices must be integers or slices, not str"
  | Fmt.pos :: rest, rhs, consumed =>
      if consumed then Except.error "TypeError: not enough arguments for format string"
      else (pyFormatGo rest rhs true).map (fun t => fmtRhsStr rhs ++ t)

def pyFormat (t : List Fmt) (rhs : FmtRhs) : Except String String :=
  pyFormatGo t rhs false

/-- `Query.args` after `__init__`: either the positional tuple, or the
one-element list holding the kwargs dict. -/
inductive QueryArgs where
  | positional (l : List Val)
  | keyword (m : List (String × Val))
deriving DecidableEq, Repr

structure Query where
  query_string : List Fmt
  args : QueryArgs
deriving DecidableEq, Repr

/-- `Query.__init__`: raises `ValueError` when both positional and named
arguments are given; otherwise stores `[kwargs]` when kwargs are present,
else the positional tuple. -/
def Query.make (query_string : List Fmt) (args : List Val)
    (kwargs : List (String × Val)) : Except String Query :=
  if args ≠ [] ∧ kwargs ≠ [] then
    Except.error "ValueError: Both named and unnamed arguments passed to query"
  else if kwargs ≠ [] then
    Except.ok ⟨query_string, QueryArgs.keyword kwargs⟩
  else
    Except.ok ⟨query_string, QueryArgs.positional args⟩

/-- `Query.__repr__`: the `len(self.args) == 1 and isinstance(self.args[0],
dict)` test selects exactly the keyword shape (no `Val` is a dict), and the
template is formatted with either the dict of `repr`s or the list of
`repr`s. -/
def Query.render (q : Query) : Except String String :=
  match q.args with
  | QueryArgs.keyword m =>
      pyFormat q.query_string (FmtRhs.rdict (m.map (fun p => (p.1, pyRepr p.2))))
  | QueryArgs.positional l =>
      pyFormat q.query_string (FmtRhs.rlist (l.map pyRepr))

/-! ## The connection gateway (`class Database`) -/

/-- A result row name→value record, as produced by
`Database._populate_rows_with_names`. -/
abbrev Record := List (String × Val)

/-- One entry of `cursor.description`; only its `name` is consumed. -/
structure Column where
  name : String
deriving DecidableEq, Repr

/-- A psycopg2 cursor after `execute`: the statement's result metadata and
the fetched rows. -/
structure Cursor where
  description : List Column
  rows : List (List Val)
deriving DecidableEq, Repr

/-- The external psycopg2 connection, abstracted for this layer as the map
sending a query to the cursor (`connection.cursor()` followed by
`cursor.execute(...)`) or the engine error that executing it yields. -/
structure Connection where
  cursor_exec : Query → Except String Cursor

/-- The gateway's observable state: the `database` and `user` attributes
(class-level `None` until set) and the `_connection` slot. -/
structure Database where
  database : Option String := none
  user : Option String := none
  conn : Option Connection := none

/-- `Database.initialize`: raise `RuntimeError` when a connection already
exists; otherwise call `connect(...)` — abstracted by `connect_result`,
which covers the credentials/host/port inputs — and only on success store
the connection and the `database`/`user` attributes.  The state is returned
alongside the outcome because a raise aborts before the assignments run. -/
def Database.init (db : Database) (connect_result : Except String Connection)
    (database user : String) : Except String Unit × Database :=
  match db.conn with
  | some _ => (Except.error "RuntimeError: Database connection already exists", db)
  | none =>
      match connect_result with
      | Except.error e => (Except.error e, db)
      | Except.ok c =>
          (Except.ok (),
            { db with conn := some c, database := some database, user := some user })

/-- `Database._get_connection`: raise `RuntimeError` when uninitialised. -/
def Database.get_connection (db : Database) : Except String Connection :=
  match db.conn with
  | none => Except.error "RuntimeError: No database connection"
  | some c => Except.ok c

/-- `Database._get_cursor_for_query`: a raised `No database connection`
propagates; otherwise the connection executes the query. -/
def Database.get_cursor_for_query (db : Database) (q : Query) : Except String Cursor :=
  match db.get_connection with
  | Except.error e => Except.error e
  | Except.ok c => c.cursor_exec q

/-- `Database.execute`. -/
def Database.execute (db : Database) (q : Query) : Except String Cursor :=
  db.get_cursor_for_query q

/-- `Database.commit`: pass-through on the (required) connection. -/
def Database.commit (db : Database) : Except String Unit :=
  match db.get_connection with
  | Except.error e => Except.error e
  | Except.ok _ => Except.ok ()

/-- `Database.rollback`: guarded pass-through, a no-op when `_connection`
is still `None`. -/
def Database.rollback (db : Database) : Except String Unit :=
  match db.conn with
  | none => Except.ok ()
  | some _ => Except.ok ()

/-- `Database._get_column_names_from_cursor`. -/
def Database.get_column_names_from_cursor (cursor : Cursor) : List String :=
  cursor.description.map Column.name

/-- `Database._populate_rows_with_names`: each row becomes the dict
`{name: value for name, value in zip(names, row)}`. -/
def Database.populate_rows_with_names (rows : List (List Val)) (names : List String) :
    List Record :=
  rows.map (fun row => dictUpdate [] (names.zip row))

/-- `Database.get_one`: fetch one row; `None` propagates as the absence
value, otherwise the row is decoded with the cursor's column names.  (The
`[0]` indexing of the singleton list cannot fail; the `IndexError` arm is
unreachable.) -/
def Database.get_one (db : Database) (q : Query) : Except String (Option Record) :=
  match db.get_cursor_for_query q with
  | Except.error e => Except.error e
  | Except.ok cursor =>
      match cursor.rows.head? with
      | none => Except.ok none
      | some row =>
          match Database.populate_rows_with_names [row]
              (Database.get_column_names_from_cursor cursor) with
          | [r] => Except.ok (some r)
          | _ => Except.error "IndexError"

/-- `Database.get_all`: decode every fetched row, preserving order. -/
def Database.get_all (db : Database) (q : Query) : Except String (List Record) :=
  match db.get_cursor_for_query q with
  | Except.error e => Except.error e
  | Except.ok cursor =>
      Except.ok (Database.populate_rows_with_names cursor.rows
        (Database.get_column_names_from_cursor cursor))

/-! ## Association-list lemmas -/

theorem alGet_alSet_self {κ α : Type} [DecidableEq κ] (d : List (κ × α)) (k : κ) (v : α) :
    alGet (alSet d k v) k = some v := by
  induction d with
  | nil => simp [alSet, alGet]
  | cons p rest ih =>
      obtain ⟨k', v'⟩ := p
      by_cases h : k' = k
      · simp [alSet, alGet, h]
      · simp [alSet, alGet, h, ih]

theorem alGet_alSet_ne {κ α : Type} [DecidableEq κ] (d : List (κ × α)) (k j : κ) (v : α)
    (hne : k ≠ j) : alGet (alSet d k v) j = alGet d j := by
  induction d with
  | nil => simp [alSet, alGet, hne]
  | cons p rest ih =>
      obtain ⟨k', v'⟩ := p
      by_cases h : k' = k
      · subst h
        simp [alSet, alGet, hne]
      · simp [alSet, alGet, h, ih]

theorem alGet_eq_none_of_not_mem {κ α : Type} [DecidableEq κ] (d : List (κ × α)) (k : κ)
    (h : k ∉ d.map Prod.fst) : alGet d k = none := by
  induction d with
  | nil => simp [alGet]
  | cons p rest ih =>
      obtain ⟨k', v'⟩ := p
      simp only [List.map_cons, List.mem_cons] at h
      push_neg at h
      have hne : ¬k' = k := fun hh => h.1 hh.symm
      simp [alGet, hne, ih h.2]

/-- Looking up after a Python `dict.update`: entries of `kw` win, all other
keys keep their old value (for `kw` with distinct keys, as `**kwargs` are). -/
theorem alGet_dictUpdate (d kw : Attrs) (hnodup : (kw.map Prod.fst).Nodup) (n : String) :
    alGet (dictUpdate d kw) n = (alGet kw n).or (alGet d n) := by
  induction kw generalizing d with
  | nil => simp [dictUpdate, alGet]
  | cons p rest ih =>
      obtain ⟨k, v⟩ := p
      simp only [List.map_cons, List.nodup_cons] at hnodup
      have hstep : dictUpdate d ((k, v) :: rest) = dictUpdate (alSet d k v) rest := rfl
      rw [hstep, ih (alSet d k v) hnodup.2]
      by_cases h : k = n
      · subst h
        have hrest : alGet rest k = none :=
          alGet_eq_none_of_not_mem rest k hnodup.1
        simp [alGet, hrest, alGet_alSet_self]
      · simp [alGet, h, alGet_alSet_ne d k n v h]

/-- Raising the cache key only reads the projection of the attributes onto
the key columns, so equal projections give equal keys (or equal failures). -/
theorem cache_key_congr (cols : List String) (a b : Attrs)
    (hproj : cols.map (alGet a) = cols.map (alGet b)) :
    cache_key cols a = cache_key cols b := by
  induction cols with
  | nil => rfl
  | cons c cs ih =>
      simp only [List.map_cons, List.cons.injEq] at hproj
      simp only [cache_key, ← hproj.1, ih hproj.2]

/-- A successful construction leaves the constructed instance cached under
its key (whether it was found there or freshly inserted). -/
theorem objectNew_instanceMap_lookup (cols : List String) (kwargs : Attrs)
    (st st' : ModelState) (i : Nat) (key : List Val)
    (hk : cache_key cols kwargs = Except.ok key)
    (h : objectNew (some cols) kwargs st = Except.ok (i, st')) :
    alGet st'.instanceMap key = some i := by
  simp only [objectNew, hk] at h
  cases hmem : alGet st.instanceMap key with
  | none =>
      rw [hmem] at h
      simp only [Except.ok.injEq, Prod.mk.injEq] at h
      obtain ⟨hi, hst⟩ := h
      subst hi
      subst hst
      exact alGet_alSet_self st.instanceMap key st.nextId
  | some j =>
      rw [hmem] at h
      simp only [Except.ok.injEq, Prod.mk.injEq] at h
      obtain ⟨hi, hst⟩ := h
      subst hi
      subst hst
      exact hmem

/-- A successful construction means the cache-key projection succeeded. -/
theorem objectNew_cache_key_ok (cols : List String) (kwargs : Attrs)
    (st st' : ModelState) (i : Nat)
    (h : objectNew (some cols) kwargs st = Except.ok (i, st')) :
    ∃ key, cache_key cols kwargs = Except.ok key := by
  simp only [objectNew] at h
  cases hck : cache_key cols kwargs with
  | error e => rw [hck] at h; exact absurd h (by simp)
  | ok key => exact ⟨key, rfl⟩

/-- If some key column is missing from the attributes, the cache-key
projection raises `KeyError` for the first missing column. -/
theorem cache_key_missing (cols : List String) (kwargs : Attrs)
    (hmiss : ∃ c ∈ cols, alGet kwargs c = none) :
    ∃ c ∈ cols, alGet kwargs c = none ∧
      cache_key cols kwargs = Except.error ("KeyError: " ++ c) := by
  induction cols with
  | nil => simp at hmiss
  | cons c cs ih =>
      cases hc : alGet kwargs c with
      | none => exact ⟨c, List.mem_cons_self c cs, hc, by simp [cache_key, hc]⟩
      | some v =>
          have hcs : ∃ c' ∈ cs, alGet kwargs c' = none := by
            obtain ⟨c', hmem, hnone⟩ := hmiss
            rcases List.mem_cons.mp hmem with rfl | hmem'
            · exact absurd hc (by simp [hnone])
            · exact ⟨c', hmem', hnone⟩
          obtain ⟨c', hmem', hnone', herr⟩ := ih hcs
          exact ⟨c', List.mem_cons_of_mem c hmem',  hnone',
            by simp [cache_key, hc, herr]⟩

/-- C1 counterexample: constructing `Options`-style instances (primary key
`("name",)`) first with `value = "one"` and then, same key, with
`value = "two"`.  `__new__` returns the cached instance 0, but `__init__`
then merges the new attributes, so the returned instance's attribute set is
`value = "two"`, not the previously cached `value = "one"` — refuting the
claim that construction on a cache hit leaves the cached state as-is. -/
theorem c1_counterexample :
    objectNew (some ["name"]) [("name", Val.str "first"), ("value", Val.str "one")]
        ⟨[], [], 0⟩
      = Except.ok (0, ⟨[([Val.str "first"], 0)],
          [(0, [("name", Val.str "first"), ("value", Val.str "one")])], 1⟩) ∧
    objectNew (some ["name"]) [("name", Val.str "first"), ("value", Val.str "two")]
        ⟨[([Val.str "first"], 0)],
          [(0, [("name", Val.str "first"), ("value", Val.str "one")])], 1⟩
      = Except.ok (0, ⟨[([Val.str "first"], 0)],
          [(0, [("name", Val.str "first"), ("value", Val.str "two")])], 1⟩) ∧
    heapAttrs ⟨[([Val.str "first"], 0)],
          [(0, [("name", Val.str "first"), ("value", Val.str "two")])], 1⟩ 0
      ≠ [("name", Val.str "first"), ("value", Val.str "one")] := by
  decide

/-- C1 (amended): constructing an instance whose primary-key tuple is
already present in the type's cache returns the existing instance and
leaves the cache mapping unchanged, but it does merge the new attributes
into the cached instance (`__init__` runs on the returned instance): keys
named in the new attributes take their new values, all other attributes
keep their previously cached values. -/
theorem c1_cache_hit_merges (cols : List String) (kwargs : Attrs) (key : List Val)
    (i : Nat) (st : ModelState)
    (hnodup : (kwargs.map Prod.fst).Nodup)
    (hk : cache_key cols kwargs = Except.ok key)
    (hc : alGet st.instanceMap key = some i) :
    ∃ st', objectNew (some cols) kwargs st = Except.ok (i, st') ∧
      st'.instanceMap = st.instanceMap ∧
      ∀ n, alGet (heapAttrs st' i) n = (alGet kwargs n).or (alGet (heapAttrs st i) n) := by
  refine ⟨{ st with heap := alSet st.heap i (dictUpdate (heapAttrs st i) kwargs) },
    ?_, rfl, ?_⟩
  · simp only [objectNew, hk, hc]
  · intro n
    have hh : heapAttrs
        { st with heap := alSet st.heap i (dictUpdate (heapAttrs st i) kwargs) } i
        = dictUpdate (heapAttrs st i) kwargs := by
      unfold heapAttrs
      simp [alGet_alSet_self]
    rw [hh, alGet_dictUpdate _ _ hnodup]

theorem c1_cache_hit_merges_witness :
    ((([("name", Val.str "first"), ("value", Val.str "two")] : Attrs).map Prod.fst).Nodup ∧
      cache_key ["name"] [("name", Val.str "first"), ("value", Val.str "two")]
        = Except.ok [Val.str "first"] ∧
      alGet ([([Val.str "first"], 0)] : List (List Val × Nat)) [Val.str "first"] = some 0) ∧
    ∃ st', objectNew (some ["name"]) [("name", Val.str "first"), ("value", Val.str "two")]
          ⟨[([Val.str "first"], 0)],
            [(0, [("name", Val.str "first"), ("value", Val.str "one")])], 1⟩
        = Except.ok (0, st') ∧
      st'.instanceMap = [([Val.str "first"], 0)] ∧
      ∀ n, alGet (heapAttrs st' 0) n
        = (alGet [("name", Val.str "first"), ("value", Val.str "two")] n).or
            (alGet (heapAttrs ⟨[([Val.str "first"], 0)],
              [(0, [("name", Val.str "first"), ("value", Val.str "one")])], 1⟩ 0) n) :=
  ⟨⟨by decide, by decide, by decide⟩,
    c1_cache_hit_merges ["name"] [("name", Val.str "first"), ("value", Val.str "two")]
      [Val.str "first"] 0
      ⟨[([Val.str "first"], 0)],
        [(0, [("name", Val.str "first"), ("value", Val.str "one")])], 1⟩
      (by decide) (by decide) (by decide)⟩

/-- C2: for a keyed model type, two constructions whose attribute sets have
equal (and, by the success of the first construction, complete) projections
onto the primary-key columns yield the same instance identity, whatever the
other attributes are — the second construction, run on the state the first
one left, returns the first construction's instance. -/
theorem c2_same_key_same_instance (cols : List String) (a b : Attrs)
    (st st1 : ModelState) (i1 : Nat)
    (hproj : cols.map (alGet a) = cols.map (alGet b))
    (h1 : objectNew (some cols) a st = Except.ok (i1, st1)) :
    ∃ st2, objectNew (some cols) b st1 = Except.ok (i1, st2) := by
  obtain ⟨key, hk⟩ := objectNew_cache_key_ok cols a st st1 i1 h1
  have hkb : cache_key cols b = Except.ok key := cache_key_congr cols a b hproj ▸ hk
  have hlook := objectNew_instanceMap_lookup cols a st st1 i1 key hk h1
  exact ⟨{ st1 with heap := alSet st1.heap i1 (dictUpdate (heapAttrs st1 i1) b) },
    by simp only [objectNew, hkb, hlook]⟩

theorem c2_same_key_same_instance_witness :
    ((["name"].map (alGet [("name", Val.str "first"), ("value", Val.str "one")])
        = ["name"].map (alGet [("name", Val.str "first"), ("extra", Val.int 7)])) ∧
      objectNew (some ["name"]) [("name", Val.str "first"), ("value", Val.str "one")]
          ⟨[], [], 0⟩
        = Except.ok (0, ⟨[([Val.str "first"], 0)],
            [(0, [("name", Val.str "first"), ("value", Val.str "one")])], 1⟩)) ∧
    ∃ st2, objectNew (some ["name"]) [("name", Val.str "first"), ("extra", Val.int 7)]
        ⟨[([Val.str "first"], 0)],
          [(0, [("name", Val.str "first"), ("value", Val.str "one")])], 1⟩
      = Except.ok (0, st2) :=
  ⟨⟨by decide, by decide⟩,
    c2_same_key_same_instance ["name"]
      [("name", Val.str "first"), ("value", Val.str "one")]
      [("name", Val.str "first"), ("extra", Val.int 7)]
      ⟨[], [], 0⟩
      ⟨[([Val.str "first"], 0)],
        [(0, [("name", Val.str "first"), ("value", Val.str "one")])], 1⟩
      0 (by decide) (by decide)⟩

/-- C8: `update(attributes)` merges the given attributes into the
instance's attribute set in place — keys named in `attributes` take the new
values, keys not mentioned keep their old values — while the identity cache
mapping, the allocation counter, and every other instance's attribute set
are untouched, so every holder of the instance's identity observes the new
values under the same cache key. -/
theorem c8_update_merges_in_place (i : Nat) (kwargs : Attrs) (st : ModelState)
    (hnodup : (kwargs.map Prod.fst).Nodup) :
    (objectUpdate i kwargs st).instanceMap = st.instanceMap ∧
    (objectUpdate i kwargs st).nextId = st.nextId ∧
    (∀ n, alGet (heapAttrs (objectUpdate i kwargs st) i) n
        = (alGet kwargs n).or (alGet (heapAttrs st i) n)) ∧
    (∀ j, j ≠ i → alGet (objectUpdate i kwargs st).heap j = alGet st.heap j) := by
  refine ⟨rfl, rfl, ?_, ?_⟩
  · intro n
    have hh : heapAttrs (objectUpdate i kwargs st) i
        = dictUpdate (heapAttrs st i) kwargs := by
      unfold objectUpdate heapAttrs
      simp [alGet_alSet_self]
    rw [hh, alGet_dictUpdate _ _ hnodup]
  · intro j hj
    exact alGet_alSet_ne st.heap i j _ (fun hh => hj hh.symm)

theorem c8_update_merges_in_place_witness :
    ((([("value", Val.str "v2")] : Attrs).map Prod.fst).Nodup ∧
      (objectUpdate 0 [("value", Val.str "v2")]
        ⟨[([Val.str "first"], 0)],
          [(0, [("name", Val.str "first"), ("value", Val.str "one")]),
           (1, [("name", Val.str "second")])], 2⟩).instanceMap
        = [([Val.str "first"], 0)]) ∧
    (∀ n, alGet (heapAttrs (objectUpdate 0 [("value", Val.str "v2")]
        ⟨[([Val.str "first"], 0)],
          [(0, [("name", Val.str "first"), ("value", Val.str "one")]),
           (1, [("name", Val.str "second")])], 2⟩) 0) n
      = (alGet [("value", Val.str "v2")] n).or
          (alGet (heapAttrs ⟨[([Val.str "first"], 0)],
            [(0, [("name", Val.str "first"), ("value", Val.str "one")]),
             (1, [("name", Val.str "second")])], 2⟩ 0) n)) ∧
    (∀ j, j ≠ 0 → alGet (objectUpdate 0 [("value", Val.str "v2")]
        ⟨[([Val.str "first"], 0)],
          [(0, [("name", Val.str "first"), ("value", Val.str "one")]),
           (1, [("name", Val.str "second")])], 2⟩).heap j
      = alGet ([(0, [("name", Val.str "first"), ("value", Val.str "one")]),
           (1, [("name", Val.str "second")])] : List (Nat × Attrs)) j) :=
  ⟨⟨by decide,
    (c8_update_merges_in_place 0 [("value", Val.str "v2")]
      ⟨[([Val.str "first"], 0)],
        [(0, [("name", Val.str "first"), ("value", Val.str "one")]),
         (1, [("name", Val.str "second")])], 2⟩ (by decide)).1⟩,
    (c8_update_merges_in_place 0 [("value", Val.str "v2")]
      ⟨[([Val.str "first"], 0)],
        [(0, [("name", Val.str "first"), ("value", Val.str "one")]),
         (1, [("name", Val.str "second")])], 2⟩ (by decide)).2.2.1,
    (c8_update_merges_in_place 0 [("value", Val.str "v2")]
      ⟨[([Val.str "first"], 0)],
        [(0, [("name", Val.str "first"), ("value", Val.str "one")]),
         (1, [("name", Val.str "second")])], 2⟩ (by decide)).2.2.2⟩

/-- C9: constructing an instance of a keyed model type from attributes that
omit some declared primary-key column raises `KeyError` for the first
missing column.  The construction returns no state: the exception aborts
`__new__` during the key projection, before the cache is consulted or
extended, so the caller's cache is exactly as it was. -/
theorem c9_missing_key_raises (cols : List String) (kwargs : Attrs) (st : ModelState)
    (hmiss : ∃ c ∈ cols, alGet kwargs c = none) :
    ∃ c ∈ cols, alGet kwargs c = none ∧
      objectNew (some cols) kwargs st = Except.error ("KeyError: " ++ c) := by
  obtain ⟨c, hmem, hnone, herr⟩ := cache_key_missing cols kwargs hmiss
  exact ⟨c, hmem, hnone, by simp only [objectNew, herr]⟩

theorem c9_missing_key_raises_witness :
    (∃ c ∈ ["name"], alGet ([("value", Val.str "one")] : Attrs) c = none) ∧
    ∃ c ∈ ["name"], alGet ([("value", Val.str "one")] : Attrs) c = none ∧
      objectNew (some ["name"]) [("value", Val.str "one")] ⟨[], [], 0⟩
        = Except.error ("KeyError: " ++ c) :=
  ⟨⟨"name", by decide, by decide⟩,
    c9_missing_key_raises ["name"] [("value", Val.str "one")] ⟨[], [], 0⟩
      ⟨"name", by decide, by decide⟩⟩

/-- C3 (code bug): `Query.__repr__` builds the per-position list
`[repr(value) for value in self.args]` — clearly intending positional
substitution — but then formats with `self.query_string % query_args`,
where `query_args` is a *list*, and the `%` operator treats a non-tuple as
a single value.  At `Query("SELECT %s, %s", 1, 2)` the rendering raises
`TypeError` instead of producing `"SELECT 1, 2"`, and at
`Query("SELECT %s", 1)` it produces `"SELECT ['1']"` instead of
`"SELECT 1"`: the arguments are not substituted by position. -/
theorem c3_positional_render_bug :
    Query.make [Fmt.lit "SELECT ", Fmt.pos, Fmt.lit ", ", Fmt.pos]
        [Val.int 1, Val.int 2] []
      = Except.ok ⟨[Fmt.lit "SELECT ", Fmt.pos, Fmt.lit ", ", Fmt.pos],
          QueryArgs.positional [Val.int 1, Val.int 2]⟩ ∧
    Query.render ⟨[Fmt.lit "SELECT ", Fmt.pos, Fmt.lit ", ", Fmt.pos],
        QueryArgs.positional [Val.int 1, Val.int 2]⟩
      = Except.error "TypeError: not enough arguments for format string" ∧
    Query.render ⟨[Fmt.lit "SELECT ", Fmt.pos], QueryArgs.positional [Val.int 1]⟩
      = Except.ok "SELECT ['1']" := by
  refine ⟨by decide, by decide, by decide⟩

/-- C4: `Query.__init__` raises `ValueError` exactly when both positional
and named arguments are supplied; with at most one kind it succeeds and
stores the arguments. -/
theorem c4_arg_styles_exclusive (qs : List Fmt) (args : List Val)
    (kwargs : List (String × Val)) :
    (args ≠ [] → kwargs ≠ [] →
      Query.make qs args kwargs
        = Except.error "ValueError: Both named and unnamed arguments passed to query") ∧
    (args = [] ∨ kwargs = [] → ∃ q, Query.make qs args kwargs = Except.ok q) := by
  constructor
  · intro ha hk
    unfold Query.make
    rw [if_pos ⟨ha, hk⟩]
  · intro h
    unfold Query.make
    have hno : ¬(args ≠ [] ∧ kwargs ≠ []) := by tauto
    rw [if_neg hno]
    by_cases hk : kwargs ≠ []
    · rw [if_pos hk]
      exact ⟨_, rfl⟩
    · rw [if_neg hk]
      exact ⟨_, rfl⟩

theorem c4_arg_styles_exclusive_witness :
    (([Val.int 1] : List Val) ≠ [] ∧ ([("a", Val.int 2)] : List (String × Val)) ≠ [] ∧
      Query.make [Fmt.pos] [Val.int 1] [("a", Val.int 2)]
        = Except.error "ValueError: Both named and unnamed arguments passed to query") ∧
    (([] : List Val) = [] ∨ ([("a", Val.int 2)] : List (String × Val)) = []) ∧
    (∃ q, Query.make [Fmt.pos] [] [("a", Val.int 2)] = Except.ok q) ∧
    (∃ q, Query.make [Fmt.pos] [Val.int 1] [] = Except.ok q) :=
  ⟨⟨by decide, by decide,
      (c4_arg_styles_exclusive [Fmt.pos] [Val.int 1] [("a", Val.int 2)]).1
        (by decide) (by decide)⟩,
    Or.inl rfl,
    (c4_arg_styles_exclusive [Fmt.pos] [] [("a", Val.int 2)]).2 (Or.inl rfl),
    (c4_arg_styles_exclusive [Fmt.pos] [Val.int 1] []).2 (Or.inr rfl)⟩

/-- C5: the rendered form of
`Query("SELECT * FROM t WHERE name = %(name)s", name="x")` is
`SELECT * FROM t WHERE name = 'x'` — the named placeholder replaced by the
quoted `repr` of the named argument's value. -/
theorem c5_named_render :
    Query.make [Fmt.lit "SELECT * FROM t WHERE name = ", Fmt.named "name"] []
        [("name", Val.str "x")]
      = Except.ok ⟨[Fmt.lit "SELECT * FROM t WHERE name = ", Fmt.named "name"],
          QueryArgs.keyword [("name", Val.str "x")]⟩ ∧
    Query.render ⟨[Fmt.lit "SELECT * FROM t WHERE name = ", Fmt.named "name"],
        QueryArgs.keyword [("name", Val.str "x")]⟩
      = Except.ok "SELECT * FROM t WHERE name = 'x'" := by
  refine ⟨by decide, by decide⟩

/-- The keys of a zip are the prefix of the first list that got paired. -/
theorem map_fst_zip_take {α β : Type} (l : List α) (l' : List β) :
    (l.zip l').map Prod.fst = l.take l'.length := by
  induction l generalizing l' with
  | nil => simp
  | cons a as ih =>
      cases l' with
      | nil => simp
      | cons b bs => simp [ih]

/-- Position-wise lookup in a zipped association list with distinct keys. -/
theorem alGet_zip_get {κ α : Type} [DecidableEq κ] (names : List κ) (row : List α)
    (hnodup : names.Nodup) (i : Nat) (hi : i < names.length) (hr : i < row.length) :
    alGet (names.zip row) (names.get ⟨i, hi⟩) = some (row.get ⟨i, hr⟩) := by
  induction names generalizing row i with
  | nil => exact absurd hi (Nat.not_lt_zero i)
  | cons n ns ih =>
      cases row with
      | nil => exact absurd hr (Nat.not_lt_zero i)
      | cons v vs =>
          simp only [List.nodup_cons] at hnodup
          cases i with
          | zero => simp [alGet]
          | succ j =>
              have hj : j < ns.length := Nat.lt_of_succ_lt_succ hi
              have hget : (n :: ns).get ⟨j + 1, hi⟩ = ns.get ⟨j, hj⟩ := rfl
              have hne : ¬ n = ns.get ⟨j, hj⟩ := fun h => by
                exact hnodup.1 (by rw [h]; exact List.get_mem ns j hj)
              rw [hget]
              simp only [List.zip_cons_cons, alGet, if_neg hne]
              exact ih vs hnodup.2 j hj (Nat.lt_of_succ_lt_succ hr)

/-- Looking a column name up in the record decoded from one row gives the
row's value at that column's position (for distinct column names). -/
theorem alGet_zipRecord (names : List String) (row : List Val)
    (hnodup : names.Nodup) (i : Nat) (hi : i < names.length) (hr : i < row.length) :
    alGet (dictUpdate [] (names.zip row)) (names.get ⟨i, hi⟩)
      = some (row.get ⟨i, hr⟩) := by
  have hzn : ((names.zip row).map Prod.fst).Nodup := by
    rw [map_fst_zip_take]
    exact hnodup.sublist (List.take_sublist _ _)
  have h1 := alGet_zip_get names row hnodup i hi hr
  rw [alGet_dictUpdate _ _ hzn, h1]
  rfl

/-- C6: with no connection yet, `execute`, `get_one` and `get_all` all
raise the `No database connection` error and `rollback` is a silent no-op;
and after one successful `initialize`, a second `initialize` raises the
`Database connection already exists` error. -/
theorem c6_gateway_guards (db : Database) (q : Query)
    (h : db.conn = none) :
    Database.execute db q = Except.error "RuntimeError: No database connection" ∧
    Database.get_one db q = Except.error "RuntimeError: No database connection" ∧
    Database.get_all db q = Except.error "RuntimeError: No database connection" ∧
    Database.rollback db = Except.ok () ∧
    ∀ (c : Connection) (dbn usr : String) (cr : Except String Connection)
      (dbn' usr' : String),
      (Database.init db (Except.ok c) dbn usr).1 = Except.ok () ∧
      (Database.init (Database.init db (Except.ok c) dbn usr).2 cr dbn' usr').1
        = Except.error "RuntimeError: Database connection already exists" := by
  have hg : Database.get_connection db
      = Except.error "RuntimeError: No database connection" := by
    simp [Database.get_connection, h]
  refine ⟨?_, ?_, ?_, ?_, ?_⟩
  · simp [Database.execute, Database.get_cursor_for_query, hg]
  · simp [Database.get_one, Database.get_cursor_for_query, hg]
  · simp [Database.get_all, Database.get_cursor_for_query, hg]
  · simp [Database.rollback, h]
  · intro c dbn usr cr dbn' usr'
    constructor
    · simp [Database.init, h]
    · simp [Database.init, h]

theorem c6_gateway_guards_witness :
    ((⟨none, none, none⟩ : Database).conn = none) ∧
    Database.execute ⟨none, none, none⟩ ⟨[], QueryArgs.positional []⟩
      = Except.error "RuntimeError: No database connection" ∧
    Database.get_one ⟨none, none, none⟩ ⟨[], QueryArgs.positional []⟩
      = Except.error "RuntimeError: No database connection" ∧
    Database.get_all ⟨none, none, none⟩ ⟨[], QueryArgs.positional []⟩
      = Except.error "RuntimeError: No database connection" ∧
    Database.rollback ⟨none, none, none⟩ = Except.ok () ∧
    (Database.init ⟨none, none, none⟩
        (Except.ok ⟨fun _ => Except.error "engine unused"⟩) "db" "usr").1
      = Except.ok () ∧
    (Database.init
        (Database.init ⟨none, none, none⟩
          (Except.ok ⟨fun _ => Except.error "engine unused"⟩) "db" "usr").2
        (Except.ok ⟨fun _ => Except.error "engine unused"⟩) "db2" "usr2").1
      = Except.error "RuntimeError: Database connection already exists" := by
  have h := c6_gateway_guards ⟨none, none, none⟩ ⟨[], QueryArgs.positional []⟩ rfl
  have h5 := h.2.2.2.2 ⟨fun _ => Except.error "engine unused"⟩ "db" "usr"
    (Except.ok ⟨fun _ => Except.error "engine unused"⟩) "db2" "usr2"
  exact ⟨rfl, h.1, h.2.1, h.2.2.1, h.2.2.2.1, h5.1, h5.2⟩

/-- C7: over a connection whose execution of `query` yields a cursor,
`get_one` returns the absence value (`Except.ok none` — a normal outcome,
not an error) when the cursor has no rows; when the cursor has a first row,
it returns that row decoded into a name-to-value record built from the
cursor's reported column names, in which each (distinct) column name looks
up the row's value at that column's position. -/
theorem c7_get_one_absence_or_decode (db : Database) (c : Connection) (q : Query)
    (cursor : Cursor) (hc : db.conn = some c)
    (hexec : c.cursor_exec q = Except.ok cursor) :
    (cursor.rows = [] → Database.get_one db q = Except.ok none) ∧
    (∀ row rest, cursor.rows = row :: rest →
      Database.get_one db q
        = Except.ok (some (dictUpdate []
            ((Database.get_column_names_from_cursor cursor).zip row))) ∧
      ((Database.get_column_names_from_cursor cursor).Nodup →
        ∀ i, ∀ hi : i < (Database.get_column_names_from_cursor cursor).length,
          ∀ hr : i < row.length,
          alGet (dictUpdate [] ((Database.get_column_names_from_cursor cursor).zip row))
              ((Database.get_column_names_from_cursor cursor).get ⟨i, hi⟩)
            = some (row.get ⟨i, hr⟩))) := by
  have hcur : Database.get_cursor_for_query db q = Except.ok cursor := by
    simp [Database.get_cursor_for_query, Database.get_connection, hc, hexec]
  constructor
  · intro hrows
    simp [Database.get_one, hcur, hrows]
  · intro row rest hrows
    constructor
    · simp [Database.get_one, hcur, hrows, Database.populate_rows_with_names]
    · intro hnodup i hi hr
      exact alGet_zipRecord _ row hnodup i hi hr

theorem c7_get_one_absence_or_decode_witness :
    ((⟨none, none, some ⟨fun _ => Except.ok ⟨[⟨"name"⟩, ⟨"value"⟩], []⟩⟩⟩ :
        Database).conn
      = some ⟨fun _ => Except.ok ⟨[⟨"name"⟩, ⟨"value"⟩], []⟩⟩ ∧
      (⟨fun _ => Except.ok ⟨[⟨"name"⟩, ⟨"value"⟩], []⟩⟩ : Connection).cursor_exec
          ⟨[], QueryArgs.positional []⟩
        = Except.ok ⟨[⟨"name"⟩, ⟨"value"⟩], []⟩) ∧
    Database.get_one ⟨none, none, some ⟨fun _ => Except.ok ⟨[⟨"name"⟩, ⟨"value"⟩], []⟩⟩⟩
        ⟨[], QueryArgs.positional []⟩
      = Except.ok none ∧
    Database.get_one ⟨none, none,
        some ⟨fun _ => Except.ok ⟨[⟨"name"⟩, ⟨"value"⟩],
          [[Val.str "first", Val.str "one"]]⟩⟩⟩
        ⟨[], QueryArgs.positional []⟩
      = Except.ok (some [("name", Val.str "first"), ("value", Val.str "one")]) := by
  refine ⟨⟨rfl, rfl⟩, ?_, ?_⟩
  · exact (c7_get_one_absence_or_decode
      ⟨none, none, some ⟨fun _ => Except.ok ⟨[⟨"name"⟩, ⟨"value"⟩], []⟩⟩⟩
      ⟨fun _ => Except.ok ⟨[⟨"name"⟩, ⟨"value"⟩], []⟩⟩
      ⟨[], QueryArgs.positional []⟩
      ⟨[⟨"name"⟩, ⟨"value"⟩], []⟩ rfl rfl).1 rfl
  · have h2 := (c7_get_one_absence_or_decode
      ⟨none, none, some ⟨fun _ => Except.ok ⟨[⟨"name"⟩, ⟨"value"⟩],
        [[Val.str "first", Val.str "one"]]⟩⟩⟩
      ⟨fun _ => Except.ok ⟨[⟨"name"⟩, ⟨"value"⟩],
        [[Val.str "first", Val.str "one"]]⟩⟩
      ⟨[], QueryArgs.positional []⟩
      ⟨[⟨"name"⟩, ⟨"value"⟩], [[Val.str "first", Val.str "one"]]⟩ rfl rfl).2
      [Val.str "first", Val.str "one"] [] rfl
    exact h2.1.trans (by decide)

/-- C10: when the driver-level `connect` raises during `initialize`, the
exception propagates and the gateway is observably unchanged — still the
same state record, so `database`/`user` keep their prior values, the data
operations still raise `No database connection`, `rollback` is still a
no-op, and a following `initialize` with a working driver succeeds instead
of raising `Database connection already exists`. -/
theorem c10_failed_init_leaves_state (db : Database) (e dbn usr : String) (q : Query)
    (h : db.conn = none) :
    (Database.init db (Except.error e) dbn usr).1 = Except.error e ∧
    (Database.init db (Except.error e) dbn usr).2 = db ∧
    (Database.init db (Except.error e) dbn usr).2.database = db.database ∧
    (Database.init db (Except.error e) dbn usr).2.user = db.user ∧
    Database.execute (Database.init db (Except.error e) dbn usr).2 q
      = Except.error "RuntimeError: No database connection" ∧
    Database.rollback (Database.init db (Except.error e) dbn usr).2 = Except.ok () ∧
    ∀ (c : Connection) (dbn' usr' : String),
      (Database.init (Database.init db (Except.error e) dbn usr).2
          (Except.ok c) dbn' usr').1
        = Except.ok () := by
  have hstep : Database.init db (Except.error e) dbn usr = (Except.error e, db) := by
    simp [Database.init, h]
  refine ⟨by rw [hstep], by rw [hstep], by rw [hstep], by rw [hstep], ?_, ?_, ?_⟩
  · rw [hstep]
    simp [Database.execute, Database.get_cursor_for_query, Database.get_connection, h]
  · rw [hstep]
    simp [Database.rollback, h]
  · intro c dbn' usr'
    rw [hstep]
    simp [Database.init, h]

theorem c10_failed_init_leaves_state_witness :
    ((⟨some "prior_db", some "prior_usr", none⟩ : Database).conn = none) ∧
    (Database.init ⟨some "prior_db", some "prior_usr", none⟩
        (Except.error "OperationalError: could not connect") "db" "usr").1
      = Except.error "OperationalError: could not connect" ∧
    (Database.init ⟨some "prior_db", some "prior_usr", none⟩
        (Except.error "OperationalError: could not connect") "db" "usr").2.database
      = some "prior_db" ∧
    (Database.init ⟨some "prior_db", some "prior_usr", none⟩
        (Except.error "OperationalError: could not connect") "db" "usr").2.user
      = some "prior_usr" ∧
    Database.execute (Database.init ⟨some "prior_db", some "prior_usr", none⟩
        (Except.error "OperationalError: could not connect") "db" "usr").2
        ⟨[], QueryArgs.positional []⟩
      = Except.error "RuntimeError: No database connection" ∧
    Database.rollback (Database.init ⟨some "prior_db", some "prior_usr", none⟩
        (Except.error "OperationalError: could not connect") "db" "usr").2
      = Except.ok () ∧
    (Database.init (Database.init ⟨some "prior_db", some "prior_usr", none⟩
        (Except.error "OperationalError: could not connect") "db" "usr").2
        (Except.ok ⟨fun _ => Except.error "engine unused"⟩) "db" "usr").1
      = Except.ok () := by
  have h := c10_failed_init_leaves_state ⟨some "prior_db", some "prior_usr", none⟩
    "OperationalError: could not connect" "db" "usr" ⟨[], QueryArgs.positional []⟩ rfl
  exact ⟨rfl, h.1, h.2.2.1, h.2.2.2.1, h.2.2.2.2.1, h.2.2.2.2.2.1,
    h.2.2.2.2.2.2 ⟨fun _ => Except.error "engine unused"⟩ "db" "usr"⟩
